import Mathlib

/-!
Shallow embedding of `generate_plots.py`: a script that reads a benchmark
CSV (`MT25081_Part_D_CSV.csv`), validates its columns, and renders four
chart images (CPU utilization, memory utilization, I/O CPU utilization,
and a 3-panel execution-time comparison).

The data model mirrors the pandas DataFrame as a list of rows; filtering
(`df[df[col] == v]`) becomes `List.filter`, `sort_values('Scale')`
becomes a merge sort on the scale field, and each `ax.plot(xs, ys, ...)`
call becomes a `Series` of `(x, y)` points.  The process's observable
behaviour (exit code, stdout, files written, plotted data) is collected
in `RunResult`; file writes with overwrite semantics are modelled by
`runOnFS` over an association-list filesystem.
-/

namespace GeneratePlots

/-- One benchmark record: a row of the CSV with the six required columns.
Numeric measurements are modelled as rationals, the scale as an integer. -/
structure Row where
  program : String
  worker_type : String
  scale : Int
  avgCPU_Percent : Rat
  avgMemory_Percent : Rat
  executionTime_Sec : Rat
deriving DecidableEq, Repr

/-- The parsed CSV: its header columns and its data rows.  Columns beyond
the six required ones are tolerated, so `columns` is an arbitrary list;
rows carry the six modelled fields (the script exits before touching row
data whenever a required column is absent). -/
structure Table where
  columns : List String
  rows : List Row
deriving DecidableEq, Repr

/-- The state of the expected input file: absent, present but not
parseable as CSV (with the parser's error message), or parsed. -/
inductive CSVFile where
  | missing
  | unparseable (msg : String)
  | parsed (t : Table)
deriving DecidableEq, Repr

/-- `csv_file = "MT25081_Part_D_CSV.csv"` from the script. -/
def csv_file : String := "MT25081_Part_D_CSV.csv"

/-- `required_columns` from the script. -/
def required_columns : List String :=
  ["Program", "Worker_Type", "Scale", "AvgCPU_Percent",
   "AvgMemory_Percent", "ExecutionTime_Sec"]

/-- One plotted data point of a line series. -/
structure Point where
  x : Int
  y : Rat
deriving DecidableEq, Repr

/-- One labelled line series, as passed to `ax.plot`. -/
structure Series where
  label : String
  points : List Point
deriving DecidableEq, Repr

/-- `sort_values('Scale')`: sort rows by ascending scale (an insertion
sort models the library sort; only the ascending order and the row
multiset are observable in the plots). -/
def sortByScale (rows : List Row) : List Row :=
  rows.insertionSort (fun a b => a.scale ≤ b.scale)

/-- `cpu_data = df[df['Worker_Type'] == 'cpu']`. -/
def cpu_data (df : List Row) : List Row :=
  df.filter (fun r => r.worker_type == "cpu")

/-- `progA_cpu = cpu_data[cpu_data['Program'] == 'progA'].sort_values('Scale')`. -/
def progA_cpu (df : List Row) : List Row :=
  sortByScale ((cpu_data df).filter (fun r => r.program == "progA"))

/-- `progB_cpu = cpu_data[cpu_data['Program'] == 'progB'].sort_values('Scale')`. -/
def progB_cpu (df : List Row) : List Row :=
  sortByScale ((cpu_data df).filter (fun r => r.program == "progB"))

/-- Plot 1 (`MT25081_cpu_vs_components.png`): the two series plotted in
Phase 4, x = Scale, y = AvgCPU_Percent. -/
def cpuChartSeries (df : List Row) : List Series :=
  [⟨"Program A (Processes)", (progA_cpu df).map (fun r => ⟨r.scale, r.avgCPU_Percent⟩)⟩,
   ⟨"Program B (Threads)", (progB_cpu df).map (fun r => ⟨r.scale, r.avgCPU_Percent⟩)⟩]

/-- `mem_data = df[df['Worker_Type'] == 'mem']`. -/
def mem_data (df : List Row) : List Row :=
  df.filter (fun r => r.worker_type == "mem")

/-- `progA_mem = mem_data[mem_data['Program'] == 'progA'].sort_values('Scale')`. -/
def progA_mem (df : List Row) : List Row :=
  sortByScale ((mem_data df).filter (fun r => r.program == "progA"))

/-- `progB_mem = mem_data[mem_data['Program'] == 'progB'].sort_values('Scale')`. -/
def progB_mem (df : List Row) : List Row :=
  sortByScale ((mem_data df).filter (fun r => r.program == "progB"))

/-- Plot 2 (`MT25081_mem_vs_components.png`): Phase 5, x = Scale,
y = AvgMemory_Percent. -/
def memChartSeries (df : List Row) : List Series :=
  [⟨"Program A (Processes)", (progA_mem df).map (fun r => ⟨r.scale, r.avgMemory_Percent⟩)⟩,
   ⟨"Program B (Threads)", (progB_mem df).map (fun r => ⟨r.scale, r.avgMemory_Percent⟩)⟩]

/-- `io_data = df[df['Worker_Type'] == 'io']`. -/
def io_data (df : List Row) : List Row :=
  df.filter (fun r => r.worker_type == "io")

/-- `progA_io = io_data[io_data['Program'] == 'progA'].sort_values('Scale')`. -/
def progA_io (df : List Row) : List Row :=
  sortByScale ((io_data df).filter (fun r => r.program == "progA"))

/-- `progB_io = io_data[io_data['Program'] == 'progB'].sort_values('Scale')`. -/
def progB_io (df : List Row) : List Row :=
  sortByScale ((io_data df).filter (fun r => r.program == "progB"))

/-- Plot 3 (`MT25081_io_vs_components.png`): Phase 6, x = Scale,
y = AvgCPU_Percent (CPU utilization during the I/O workload). -/
def ioChartSeries (df : List Row) : List Series :=
  [⟨"Program A (Processes)", (progA_io df).map (fun r => ⟨r.scale, r.avgCPU_Percent⟩)⟩,
   ⟨"Program B (Threads)", (progB_io df).map (fun r => ⟨r.scale, r.avgCPU_Percent⟩)⟩]

/-- `progA_subset` in the Phase-7 loop:
`df[(df['Program'] == 'progA') & (df['Worker_Type'] == worker)].sort_values('Scale')`. -/
def progA_subset (df : List Row) (worker : String) : List Row :=
  sortByScale (df.filter (fun r => r.program == "progA" && r.worker_type == worker))

/-- `progB_subset` in the Phase-7 loop. -/
def progB_subset (df : List Row) (worker : String) : List Row :=
  sortByScale (df.filter (fun r => r.program == "progB" && r.worker_type == worker))

/-- One subplot of the execution-time comparison figure. -/
structure Panel where
  worker : String
  series : List Series
deriving DecidableEq, Repr

/-- Plot 4 (`MT25081_time_vs_components.png`): `for idx, worker in
enumerate(['cpu', 'mem', 'io'])`, one panel per worker type, each panel
plotting progA and progB execution times against scale. -/
def timeChartPanels (df : List Row) : List Panel :=
  ["cpu", "mem", "io"].map (fun worker =>
    ⟨worker,
     [⟨"Processes", (progA_subset df worker).map (fun r => ⟨r.scale, r.executionTime_Sec⟩)⟩,
      ⟨"Threads", (progB_subset df worker).map (fun r => ⟨r.scale, r.executionTime_Sec⟩)⟩]⟩)

/-- The four chart data sets computed from the loaded table. -/
structure Charts where
  cpu : List Series
  mem : List Series
  io : List Series
  time : List Panel
deriving DecidableEq, Repr

/-- The charts the script derives from the loaded rows, in program order. -/
def chartsOf (df : List Row) : Charts :=
  ⟨cpuChartSeries df, memChartSeries df, ioChartSeries df, timeChartPanels df⟩

/-- Distinct values in order of first appearance, as `pandas.Series.unique`
returns them; `seen` accumulates values already emitted. -/
def uniqueAux {α : Type} [DecidableEq α] (seen : List α) : List α → List α
  | [] => []
  | a :: l => if a ∈ seen then uniqueAux seen l else a :: uniqueAux (a :: seen) l

/-- `df[col].unique()`: distinct values in first-seen order. -/
def uniqueFirstSeen {α : Type} [DecidableEq α] (l : List α) : List α :=
  uniqueAux [] l

/-- The Phase-2 data summary the script prints: row count, distinct
programs and worker types in first-seen order, and sorted distinct scales. -/
structure Summary where
  rowCount : Nat
  programs : List String
  workerTypes : List String
  scales : List Int
deriving DecidableEq, Repr

/-- The summary computed from the loaded rows: `len(df)`,
`df['Program'].unique()`, `df['Worker_Type'].unique()`,
`sorted(df['Scale'].unique())`. -/
def summarize (df : List Row) : Summary :=
  ⟨df.length,
   uniqueFirstSeen (df.map (·.program)),
   uniqueFirstSeen (df.map (·.worker_type)),
   (uniqueFirstSeen (df.map (·.scale))).insertionSort (fun a b => a ≤ b)⟩

/-- The four output filenames, in the order the script saves them. -/
def output_files : List String :=
  ["MT25081_cpu_vs_components.png", "MT25081_mem_vs_components.png",
   "MT25081_io_vs_components.png", "MT25081_time_vs_components.png"]

/-- The script's column validation:
`all(col in df.columns for col in required_columns)`. -/
def columnsValid (t : Table) : Bool :=
  required_columns.all (fun c => t.columns.contains c)

/-- Observable behaviour of one run of `main`: exit code, diagnostic
stdout lines, image files written (in order), the printed data summary,
and the plotted chart data (the latter two are `none` on error exits). -/
structure RunResult where
  exitCode : Nat
  stdout : List String
  outputsWritten : List String
  summary : Option Summary
  charts : Option Charts
deriving DecidableEq, Repr

/-- The `main` function of the script as a function of the input-file
state.  Phase 1 checks existence, Phase 2 parses and validates columns,
Phases 4-7 build and save the four charts, each `sys.exit(1)` becomes
exit code 1 with no outputs. -/
def mainRun (input : CSVFile) : RunResult :=
  match input with
  | .missing =>
      ⟨1,
       ["Error: " ++ csv_file ++ " not found",
        "Please run Part D benchmark first: bash MT25081_Part_D_scaling.sh"],
       [], none, none⟩
  | .unparseable msg =>
      ⟨1,
       ["Reading benchmark data...", "Error reading CSV: " ++ msg],
       [], none, none⟩
  | .parsed t =>
      if columnsValid t then
        ⟨0,
         ["Reading benchmark data...",
          "Generating performance analysis plots...",
          "All 4 plots generated successfully!"],
         output_files, some (summarize t.rows), some (chartsOf t.rows)⟩
      else
        ⟨1,
         ["Reading benchmark data...",
          "Error: CSV missing required columns: " ++
            String.intercalate ", " required_columns],
         [], none, none⟩

/-- The data written into one saved image: a single-panel figure's series
or the multi-panel figure's panels. -/
inductive ImageData where
  | single (s : List Series)
  | multi (p : List Panel)
deriving DecidableEq, Repr

/-- A filesystem for the run: the state of the input CSV plus the images
directory as an association list from filename to image data. -/
structure FS where
  csv : CSVFile
  images : List (String × ImageData)
deriving DecidableEq, Repr

/-- `plt.savefig(name)`: write `d` under `name`, overwriting any existing
entry of that name. -/
def writeFile (images : List (String × ImageData)) (name : String) (d : ImageData) :
    List (String × ImageData) :=
  (name, d) :: images.filter (fun e => e.1 != name)

/-- One run of the script over a filesystem: on success the four figures
are saved in program order; on any error exit nothing is written.  The
input CSV is only ever read. -/
def runOnFS (fs : FS) : FS :=
  match fs.csv with
  | .parsed t =>
      if columnsValid t then
        ⟨fs.csv,
         writeFile
           (writeFile
             (writeFile
               (writeFile fs.images "MT25081_cpu_vs_components.png"
                 (.single (cpuChartSeries t.rows)))
               "MT25081_mem_vs_components.png" (.single (memChartSeries t.rows)))
             "MT25081_io_vs_components.png" (.single (ioChartSeries t.rows)))
           "MT25081_time_vs_components.png" (.multi (timeChartPanels t.rows))⟩
      else fs
  | _ => fs

/-! Helper lemmas about the sorting and uniqueness auxiliaries. -/

instance : IsTotal Row (fun a b => a.scale ≤ b.scale) :=
  ⟨fun a b => Int.le_total a.scale b.scale⟩

instance : IsTrans Row (fun a b => a.scale ≤ b.scale) :=
  ⟨fun _ _ _ hab hbc => Int.le_trans hab hbc⟩

theorem sortByScale_perm (l : List Row) : (sortByScale l).Perm l :=
  List.perm_insertionSort _ l

theorem sortByScale_mem {r : Row} {l : List Row} : r ∈ sortByScale l ↔ r ∈ l :=
  List.mem_insertionSort _

theorem sortByScale_sorted (l : List Row) :
    (sortByScale l).Pairwise (fun a b => a.scale ≤ b.scale) :=
  List.sorted_insertionSort _ l

theorem mem_uniqueAux {α : Type} [DecidableEq α] (a : α) (l seen : List α) :
    a ∈ uniqueAux seen l ↔ a ∈ l ∧ a ∉ seen := by
  induction l generalizing seen with
  | nil => simp [uniqueAux]
  | cons b l ih =>
    by_cases hb : b ∈ seen
    · rw [uniqueAux, if_pos hb, ih]
      constructor
      · rintro ⟨h1, h2⟩
        exact ⟨List.mem_cons_of_mem _ h1, h2⟩
      · rintro ⟨h1, h2⟩
        rcases List.mem_cons.mp h1 with rfl | h1
        · exact absurd hb h2
        · exact ⟨h1, h2⟩
    · rw [uniqueAux, if_neg hb]
      by_cases hab : a = b
      · subst hab
        simp [hb]
      · simp only [List.mem_cons, hab, false_or, ih]

theorem mem_uniqueFirstSeen {α : Type} [DecidableEq α] {a : α} {l : List α} :
    a ∈ uniqueFirstSeen l ↔ a ∈ l := by
  rw [uniqueFirstSeen, mem_uniqueAux]
  simp

/-! Claim theorems. -/

/-- C1: for every well-formed input table that has rows for both programs,
all three worker types, and every scale from 2 to 8, the run exits with
status 0 and writes exactly the four image files
`MT25081_cpu_vs_components.png`, `MT25081_mem_vs_components.png`,
`MT25081_io_vs_components.png`, `MT25081_time_vs_components.png`. -/
theorem c1_success_four_outputs (t : Table)
    (hcols : columnsValid t = true)
    (_hrows : ∀ p ∈ (["progA", "progB"] : List String),
      ∀ w ∈ (["cpu", "mem", "io"] : List String),
      ∀ s ∈ ([2, 3, 4, 5, 6, 7, 8] : List Int),
      ∃ r ∈ t.rows, r.program = p ∧ r.worker_type = w ∧ r.scale = s) :
    (mainRun (.parsed t)).exitCode = 0 ∧
    (mainRun (.parsed t)).outputsWritten =
      ["MT25081_cpu_vs_components.png", "MT25081_mem_vs_components.png",
       "MT25081_io_vs_components.png", "MT25081_time_vs_components.png"] := by
  rw [mainRun, if_pos hcols]
  exact ⟨rfl, rfl⟩

/-- A table with all six required columns and one row for each combination
of program, worker type, and scale 2 through 8 (42 rows). -/
def fullTable : Table :=
  ⟨required_columns,
   (["progA", "progB"] : List String).flatMap (fun p =>
     (["cpu", "mem", "io"] : List String).flatMap (fun w =>
       ([2, 3, 4, 5, 6, 7, 8] : List Int).map (fun s =>
         ⟨p, w, s, 10, 1, 5⟩)))⟩

theorem c1_success_four_outputs_witness :
    (mainRun (.parsed fullTable)).exitCode = 0 ∧
    (mainRun (.parsed fullTable)).outputsWritten =
      ["MT25081_cpu_vs_components.png", "MT25081_mem_vs_components.png",
       "MT25081_io_vs_components.png", "MT25081_time_vs_components.png"] :=
  c1_success_four_outputs fullTable (by decide) (by decide)

/-- C3: when the expected input file does not exist, the run prints a
message naming the missing file (`MT25081_Part_D_CSV.csv`) and the
external command expected to produce it
(`bash MT25081_Part_D_scaling.sh`), exits with status 1, and creates no
output image file: the filesystem is left untouched. -/
theorem c3_missing_input :
    (mainRun .missing).exitCode = 1 ∧
    (mainRun .missing).outputsWritten = [] ∧
    (mainRun .missing).charts = none ∧
    (mainRun .missing).stdout =
      ["Error: " ++ csv_file ++ " not found",
       "Please run Part D benchmark first: bash MT25081_Part_D_scaling.sh"] ∧
    (∀ imgs : List (String × ImageData), runOnFS ⟨.missing, imgs⟩ = ⟨.missing, imgs⟩) :=
  ⟨rfl, rfl, rfl, rfl, fun _ => rfl⟩

/-- C4: a parseable table missing at least one of the six required columns
makes the run report the full required-column list, exit with status 1,
and stop before any rendering (no outputs, no chart data). -/
theorem c4_missing_column (t : Table)
    (h : ∃ c ∈ required_columns, c ∉ t.columns) :
    (mainRun (.parsed t)).exitCode = 1 ∧
    (mainRun (.parsed t)).outputsWritten = [] ∧
    (mainRun (.parsed t)).charts = none ∧
    ("Error: CSV missing required columns: " ++
      String.intercalate ", " required_columns) ∈ (mainRun (.parsed t)).stdout := by
  have hc : ¬ (columnsValid t = true) := by
    obtain ⟨c, hcmem, hcnot⟩ := h
    rw [columnsValid, List.all_eq_true]
    intro hall
    exact hcnot (by simpa using hall c hcmem)
  rw [mainRun, if_neg hc]
  exact ⟨rfl, rfl, rfl, by simp⟩

/-- A table whose header lacks the `ExecutionTime_Sec` column. -/
def tableMissingTimeColumn : Table :=
  ⟨["Program", "Worker_Type", "Scale", "AvgCPU_Percent", "AvgMemory_Percent"], []⟩

theorem c4_missing_column_witness :
    (mainRun (.parsed tableMissingTimeColumn)).exitCode = 1 ∧
    (mainRun (.parsed tableMissingTimeColumn)).outputsWritten = [] ∧
    (mainRun (.parsed tableMissingTimeColumn)).charts = none ∧
    ("Error: CSV missing required columns: " ++
      String.intercalate ", " required_columns) ∈
      (mainRun (.parsed tableMissingTimeColumn)).stdout :=
  c4_missing_column tableMissingTimeColumn (by decide)

/-- C5: the exit code is always 0 or 1, and is 1 exactly on the three
fatal error kinds (missing file, parse failure, missing required column);
a parse failure is reported with the parser's own message; a run that
exits 0 writes all four images and a run that exits 1 writes none. -/
theorem c5_exit_codes (input : CSVFile) :
    ((mainRun input).exitCode = 0 ∨ (mainRun input).exitCode = 1) ∧
    ((mainRun input).exitCode = 1 ↔
      (input = .missing ∨ (∃ m, input = .unparseable m) ∨
       (∃ t, input = .parsed t ∧ columnsValid t = false))) ∧
    (∀ m, input = .unparseable m →
      ("Error reading CSV: " ++ m) ∈ (mainRun input).stdout) ∧
    ((mainRun input).exitCode = 0 → (mainRun input).outputsWritten = output_files) ∧
    ((mainRun input).exitCode = 1 → (mainRun input).outputsWritten = []) := by
  cases input with
  | missing => simp [mainRun]
  | unparseable m => simp [mainRun]
  | parsed t =>
    by_cases h : columnsValid t = true
    · rw [mainRun, if_pos h]
      simp [h]
    · rw [mainRun, if_neg h]
      simp only [Bool.not_eq_true] at h
      simp [h]

theorem c5_exit_codes_witness :
    (((mainRun (.unparseable "bad header")).exitCode = 0 ∨
      (mainRun (.unparseable "bad header")).exitCode = 1) ∧
     ((mainRun (.unparseable "bad header")).exitCode = 1 ↔
       (CSVFile.unparseable "bad header" = .missing ∨
        (∃ m, CSVFile.unparseable "bad header" = .unparseable m) ∨
        (∃ t, CSVFile.unparseable "bad header" = .parsed t ∧ columnsValid t = false))) ∧
     (∀ m, CSVFile.unparseable "bad header" = .unparseable m →
       ("Error reading CSV: " ++ m) ∈ (mainRun (.unparseable "bad header")).stdout) ∧
     ((mainRun (.unparseable "bad header")).exitCode = 0 →
       (mainRun (.unparseable "bad header")).outputsWritten = output_files) ∧
     ((mainRun (.unparseable "bad header")).exitCode = 1 →
       (mainRun (.unparseable "bad header")).outputsWritten = [])) :=
  c5_exit_codes (.unparseable "bad header")

/-- Composing the worker-type filter with the program filter is one filter
on the conjunction of both tests. -/
theorem filter_worker_then_program (df : List Row) (w p : String) :
    (df.filter (fun r => r.worker_type == w)).filter (fun r => r.program == p) =
      df.filter (fun r => r.worker_type == w && r.program == p) := by
  rw [List.filter_filter]
  exact List.filter_congr fun a _ => Bool.and_comm _ _

theorem map_sortByScale_sorted (l : List Row) (y : Row → Rat) :
    ((sortByScale l).map (fun r => Point.mk r.scale (y r))).Pairwise
      (fun a b => a.x ≤ b.x) :=
  (sortByScale_sorted l).map _ (fun _ _ h => h)

/-- C2: in the CPU-utilization chart, the series for each of the two
programs consists of exactly the rows whose worker type is `cpu` and
whose program matches, plotted as `(scale, avgCPU_Percent)` points in
ascending order of scale. -/
theorem c2_cpu_series (df : List Row) (p : String)
    (hp : p = "progA" ∨ p = "progB") :
    ∃ s ∈ cpuChartSeries df,
      s.label = (if p = "progA" then "Program A (Processes)" else "Program B (Threads)") ∧
      s.points.Perm
        ((df.filter (fun r => r.worker_type == "cpu" && r.program == p)).map
          (fun r => Point.mk r.scale r.avgCPU_Percent)) ∧
      s.points.Pairwise (fun a b => a.x ≤ b.x) := by
  have key : ∀ q : String,
      ((sortByScale ((cpu_data df).filter (fun r => r.program == q))).map
          (fun r => Point.mk r.scale r.avgCPU_Percent)).Perm
        ((df.filter (fun r => r.worker_type == "cpu" && r.program == q)).map
          (fun r => Point.mk r.scale r.avgCPU_Percent)) := by
    intro q
    rw [cpu_data, filter_worker_then_program]
    exact (sortByScale_perm _).map _
  rcases hp with rfl | rfl
  · refine ⟨Series.mk "Program A (Processes)"
        ((progA_cpu df).map (fun r => Point.mk r.scale r.avgCPU_Percent)),
      by simp [cpuChartSeries], by simp, ?_, ?_⟩
    · exact key "progA"
    · exact map_sortByScale_sorted _ _
  · refine ⟨Series.mk "Program B (Threads)"
        ((progB_cpu df).map (fun r => Point.mk r.scale r.avgCPU_Percent)),
      by simp [cpuChartSeries], by simp, ?_, ?_⟩
    · exact key "progB"
    · exact map_sortByScale_sorted _ _

/-- The two rows of the worked example in the specification. -/
def exampleRows : List Row :=
  [⟨"progA", "cpu", 2, 10, 1, 5⟩,
   ⟨"progA", "cpu", 8, 76, 308 / 100, 4⟩]

theorem c2_cpu_series_witness :
    ∃ s ∈ cpuChartSeries exampleRows,
      s.label = (if "progA" = "progA" then "Program A (Processes)" else "Program B (Threads)") ∧
      s.points.Perm
        ((exampleRows.filter (fun r => r.worker_type == "cpu" && r.program == "progA")).map
          (fun r => Point.mk r.scale r.avgCPU_Percent)) ∧
      s.points.Pairwise (fun a b => a.x ≤ b.x) :=
  c2_cpu_series exampleRows "progA" (Or.inl rfl)

example :
    cpuChartSeries exampleRows =
      [⟨"Program A (Processes)", [⟨2, 10⟩, ⟨8, 76⟩]⟩,
       ⟨"Program B (Threads)", []⟩] := by decide

/-- A row whose worker type differs from `w` survives no filter chain that
tests `worker_type == w` first. -/
theorem not_mem_worker_chain {r : Row} (df : List Row) (w p : String)
    (h : r.worker_type ≠ w) :
    r ∉ sortByScale ((df.filter (fun x => x.worker_type == w)).filter
      (fun x => x.program == p)) := by
  intro hmem
  rw [sortByScale_mem, List.mem_filter, List.mem_filter] at hmem
  exact h (by simpa using hmem.1.2)

/-- A row whose worker type differs from `w` survives no Phase-7 subset
filter for worker `w`. -/
theorem not_mem_subset_chain {r : Row} (df : List Row) (p w : String)
    (h : r.worker_type ≠ w) :
    r ∉ sortByScale (df.filter (fun x => x.program == p && x.worker_type == w)) := by
  intro hmem
  rw [sortByScale_mem, List.mem_filter, Bool.and_eq_true] at hmem
  exact h (by simpa using hmem.2.2)

/-- C10: worker-type selection is case-sensitive exact equality against
the literals `cpu`, `mem`, `io`: a row with any other worker-type string
is excluded from the sorted row selection of every series of all four
charts, yet still counts toward the printed row total and appears in the
distinct worker-type summary. -/
theorem c10_case_sensitive (df : List Row) (r : Row)
    (hr : r ∈ df) (hw : r.worker_type ∉ (["cpu", "mem", "io"] : List String)) :
    r ∉ progA_cpu df ∧ r ∉ progB_cpu df ∧
    r ∉ progA_mem df ∧ r ∉ progB_mem df ∧
    r ∉ progA_io df ∧ r ∉ progB_io df ∧
    (∀ w ∈ (["cpu", "mem", "io"] : List String),
      r ∉ progA_subset df w ∧ r ∉ progB_subset df w) ∧
    (summarize df).rowCount = df.length ∧
    r.worker_type ∈ (summarize df).workerTypes := by
  simp only [List.mem_cons, List.not_mem_nil, or_false, not_or] at hw
  obtain ⟨hcpu, hmem, hio⟩ := hw
  refine ⟨not_mem_worker_chain df "cpu" "progA" hcpu,
    not_mem_worker_chain df "cpu" "progB" hcpu,
    not_mem_worker_chain df "mem" "progA" hmem,
    not_mem_worker_chain df "mem" "progB" hmem,
    not_mem_worker_chain df "io" "progA" hio,
    not_mem_worker_chain df "io" "progB" hio,
    ?_, rfl, ?_⟩
  · intro w hwmem
    have hne : r.worker_type ≠ w := by
      simp only [List.mem_cons, List.not_mem_nil, or_false] at hwmem
      rcases hwmem with rfl | rfl | rfl
      · exact hcpu
      · exact hmem
      · exact hio
    exact ⟨not_mem_subset_chain df "progA" w hne, not_mem_subset_chain df "progB" w hne⟩
  · exact mem_uniqueFirstSeen.mpr (List.mem_map_of_mem _ hr)

/-- A row whose worker type is spelled `CPU` rather than `cpu`. -/
def upperCaseRow : Row := ⟨"progA", "CPU", 2, 10, 1, 5⟩

theorem c10_case_sensitive_witness :
    upperCaseRow ∉ progA_cpu [upperCaseRow] ∧ upperCaseRow ∉ progB_cpu [upperCaseRow] ∧
    upperCaseRow ∉ progA_mem [upperCaseRow] ∧ upperCaseRow ∉ progB_mem [upperCaseRow] ∧
    upperCaseRow ∉ progA_io [upperCaseRow] ∧ upperCaseRow ∉ progB_io [upperCaseRow] ∧
    (∀ w ∈ (["cpu", "mem", "io"] : List String),
      upperCaseRow ∉ progA_subset [upperCaseRow] w ∧
      upperCaseRow ∉ progB_subset [upperCaseRow] w) ∧
    (summarize [upperCaseRow]).rowCount = ([upperCaseRow] : List Row).length ∧
    upperCaseRow.worker_type ∈ (summarize [upperCaseRow]).workerTypes :=
  c10_case_sensitive [upperCaseRow] upperCaseRow (by decide) (by decide)

/-- If no row has worker type `w`, the Phase-7 subset for `w` is empty. -/
theorem subset_empty_of_no_worker (df : List Row) (p w : String)
    (h : ∀ r ∈ df, r.worker_type ≠ w) :
    sortByScale (df.filter (fun r => r.program == p && r.worker_type == w)) = [] := by
  have : df.filter (fun r => r.program == p && r.worker_type == w) = [] := by
    rw [List.filter_eq_nil_iff]
    intro a ha
    simp only [Bool.and_eq_true, beq_iff_eq, not_and]
    exact fun _ => h a ha
  rw [this]
  rfl

/-- If no row has worker type `w`, the single-panel filter chain for `w`
is empty. -/
theorem chain_empty_of_no_worker (df : List Row) (w p : String)
    (h : ∀ r ∈ df, r.worker_type ≠ w) :
    sortByScale ((df.filter (fun r => r.worker_type == w)).filter
      (fun r => r.program == p)) = [] := by
  have h1 : df.filter (fun r => r.worker_type == w) = [] := by
    rw [List.filter_eq_nil_iff]
    intro a ha
    simpa using h a ha
  rw [h1]
  rfl

/-- C7: when some fixed worker-type category has no matching rows, the
corresponding panel's series in the execution-time chart are empty, the
matching single-panel chart's series are empty, and the run still
succeeds with exit code 0 — an empty filter result never causes a
failure. -/
theorem c7_empty_category (df : List Row) (w : String)
    (_hw : w ∈ (["cpu", "mem", "io"] : List String))
    (h : ∀ r ∈ df, r.worker_type ≠ w) :
    (∀ panel ∈ timeChartPanels df, panel.worker = w →
      ∀ s ∈ panel.series, s.points = []) ∧
    (w = "cpu" → ∀ s ∈ cpuChartSeries df, s.points = []) ∧
    (w = "mem" → ∀ s ∈ memChartSeries df, s.points = []) ∧
    (w = "io" → ∀ s ∈ ioChartSeries df, s.points = []) ∧
    (∀ t : Table, t.rows = df → columnsValid t = true →
      (mainRun (.parsed t)).exitCode = 0) := by
  refine ⟨?_, ?_, ?_, ?_, ?_⟩
  · intro panel hpanel hpw s hs
    rcases List.mem_map.mp hpanel with ⟨w', _, rfl⟩
    have hw' : w' = w := hpw
    subst hw'
    rcases List.mem_cons.mp hs with rfl | hs
    · show ((progA_subset df w').map _) = []
      rw [progA_subset, subset_empty_of_no_worker df "progA" w' h, List.map_nil]
    · rcases List.mem_cons.mp hs with rfl | hs
      · show ((progB_subset df w').map _) = []
        rw [progB_subset, subset_empty_of_no_worker df "progB" w' h, List.map_nil]
      · exact absurd hs (List.not_mem_nil s)
  · rintro rfl s hs
    rcases List.mem_cons.mp hs with rfl | hs
    · show ((progA_cpu df).map _) = []
      rw [progA_cpu, cpu_data, chain_empty_of_no_worker df "cpu" "progA" h, List.map_nil]
    · rcases List.mem_cons.mp hs with rfl | hs
      · show ((progB_cpu df).map _) = []
        rw [progB_cpu, cpu_data, chain_empty_of_no_worker df "cpu" "progB" h, List.map_nil]
      · exact absurd hs (List.not_mem_nil s)
  · rintro rfl s hs
    rcases List.mem_cons.mp hs with rfl | hs
    · show ((progA_mem df).map _) = []
      rw [progA_mem, mem_data, chain_empty_of_no_worker df "mem" "progA" h, List.map_nil]
    · rcases List.mem_cons.mp hs with rfl | hs
      · show ((progB_mem df).map _) = []
        rw [progB_mem, mem_data, chain_empty_of_no_worker df "mem" "progB" h, List.map_nil]
      · exact absurd hs (List.not_mem_nil s)
  · rintro rfl s hs
    rcases List.mem_cons.mp hs with rfl | hs
    · show ((progA_io df).map _) = []
      rw [progA_io, io_data, chain_empty_of_no_worker df "io" "progA" h, List.map_nil]
    · rcases List.mem_cons.mp hs with rfl | hs
      · show ((progB_io df).map _) = []
        rw [progB_io, io_data, chain_empty_of_no_worker df "io" "progB" h, List.map_nil]
      · exact absurd hs (List.not_mem_nil s)
  · intro t _ hcols
    rw [mainRun, if_pos hcols]

/-- Rows covering only the `cpu` and `io` categories. -/
def rowsWithoutMem : List Row :=
  [⟨"progA", "cpu", 2, 10, 1, 5⟩, ⟨"progB", "io", 2, 40, 1, 3⟩]

theorem c7_empty_category_witness :
    ((∀ panel ∈ timeChartPanels rowsWithoutMem, panel.worker = "mem" →
        ∀ s ∈ panel.series, s.points = []) ∧
     ("mem" = "cpu" → ∀ s ∈ cpuChartSeries rowsWithoutMem, s.points = []) ∧
     ("mem" = "mem" → ∀ s ∈ memChartSeries rowsWithoutMem, s.points = []) ∧
     ("mem" = "io" → ∀ s ∈ ioChartSeries rowsWithoutMem, s.points = []) ∧
     (∀ t : Table, t.rows = rowsWithoutMem → columnsValid t = true →
       (mainRun (.parsed t)).exitCode = 0)) :=
  c7_empty_category rowsWithoutMem "mem" (by decide) (by decide)

/-- A row whose worker type is `other`, outside the three categories. -/
def otherRow : Row := ⟨"progA", "other", 2, 10, 1, 5⟩

/-- C6 counterexample: on a table whose only row has worker type `other`,
that worker type appears in the data summary, yet every series of every
panel of the execution-time chart is empty — in particular the row's
point `(2, 5)` is plotted nowhere, so the chart does apply a worker-type
row filter and not every worker type is represented. -/
theorem c6_counterexample :
    "other" ∈ (summarize [otherRow]).workerTypes ∧
    (∀ panel ∈ timeChartPanels [otherRow], ∀ s ∈ panel.series, s.points = []) ∧
    ¬ (∃ panel ∈ timeChartPanels [otherRow], ∃ s ∈ panel.series,
        Point.mk 2 5 ∈ s.points) := by
  decide

/-- C6 (amended): the execution-time chart is not restricted to a single
worker type: it has exactly 3 panels, one per fixed category `cpu`,
`mem`, `io`; each panel holds one series per program whose points are
exactly that panel's (program, worker) rows plotted as
`(scale, executionTime_Sec)` in ascending scale order; rows whose worker
type is outside the three categories appear in no panel's selection. -/
theorem c6_time_chart_structure (df : List Row) :
    (timeChartPanels df).map Panel.worker = ["cpu", "mem", "io"] ∧
    (timeChartPanels df).length = 3 ∧
    (∀ panel ∈ timeChartPanels df,
      ∃ sA sB, panel.series = [sA, sB] ∧
        sA.label = "Processes" ∧ sB.label = "Threads" ∧
        sA.points.Perm
          ((df.filter (fun r => r.program == "progA" && r.worker_type == panel.worker)).map
            (fun r => Point.mk r.scale r.executionTime_Sec)) ∧
        sA.points.Pairwise (fun a b => a.x ≤ b.x) ∧
        sB.points.Perm
          ((df.filter (fun r => r.program == "progB" && r.worker_type == panel.worker)).map
            (fun r => Point.mk r.scale r.executionTime_Sec)) ∧
        sB.points.Pairwise (fun a b => a.x ≤ b.x)) ∧
    (∀ r ∈ df, r.worker_type ∉ (["cpu", "mem", "io"] : List String) →
      ∀ panel ∈ timeChartPanels df,
        r ∉ progA_subset df panel.worker ∧ r ∉ progB_subset df panel.worker) := by
  refine ⟨by simp [timeChartPanels], by simp [timeChartPanels], ?_, ?_⟩
  · intro panel hpanel
    rcases List.mem_map.mp hpanel with ⟨w, _, rfl⟩
    refine ⟨_, _, rfl, rfl, rfl, ?_, ?_, ?_, ?_⟩
    · exact (sortByScale_perm _).map _
    · exact map_sortByScale_sorted _ _
    · exact (sortByScale_perm _).map _
    · exact map_sortByScale_sorted _ _
  · intro r _ hw panel hpanel
    rcases List.mem_map.mp hpanel with ⟨w, hwmem, rfl⟩
    simp only [List.mem_cons, List.not_mem_nil, or_false, not_or] at hw
    obtain ⟨hcpu, hmem, hio⟩ := hw
    have hne : r.worker_type ≠ w := by
      simp only [List.mem_cons, List.not_mem_nil, or_false] at hwmem
      rcases hwmem with rfl | rfl | rfl
      · exact hcpu
      · exact hmem
      · exact hio
    exact ⟨not_mem_subset_chain df "progA" w hne, not_mem_subset_chain df "progB" w hne⟩

theorem c6_time_chart_structure_witness :
    ((timeChartPanels exampleRows).map Panel.worker = ["cpu", "mem", "io"] ∧
     (timeChartPanels exampleRows).length = 3 ∧
     (∀ panel ∈ timeChartPanels exampleRows,
       ∃ sA sB, panel.series = [sA, sB] ∧
         sA.label = "Processes" ∧ sB.label = "Threads" ∧
         sA.points.Perm
           ((exampleRows.filter
               (fun r => r.program == "progA" && r.worker_type == panel.worker)).map
             (fun r => Point.mk r.scale r.executionTime_Sec)) ∧
         sA.points.Pairwise (fun a b => a.x ≤ b.x) ∧
         sB.points.Perm
           ((exampleRows.filter
               (fun r => r.program == "progB" && r.worker_type == panel.worker)).map
             (fun r => Point.mk r.scale r.executionTime_Sec)) ∧
         sB.points.Pairwise (fun a b => a.x ≤ b.x)) ∧
     (∀ r ∈ exampleRows, r.worker_type ∉ (["cpu", "mem", "io"] : List String) →
       ∀ panel ∈ timeChartPanels exampleRows,
         r ∉ progA_subset exampleRows panel.worker ∧
         r ∉ progB_subset exampleRows panel.worker)) :=
  c6_time_chart_structure exampleRows

/-! Lookup lemmas for the overwrite-semantics filesystem model. -/

theorem lookup_filter_ne (name m : String) (h : name ≠ m)
    (images : List (String × ImageData)) :
    List.lookup name (images.filter (fun e => e.1 != m)) = List.lookup name images := by
  induction images with
  | nil => rfl
  | cons e t ih =>
    obtain ⟨k, v⟩ := e
    by_cases hk : k = m
    · subst hk
      have h2 : (name == k) = false := beq_eq_false_iff_ne.mpr h
      simp [List.lookup, h2, ih]
    · have h3 : ((k, v).1 != m) = true := by simpa using hk
      simp only [List.filter_cons, h3, if_true]
      rw [List.lookup_cons, List.lookup_cons]
      cases hna : name == k
      · exact ih
      · rfl

theorem lookup_writeFile_self (images : List (String × ImageData))
    (name : String) (d : ImageData) :
    List.lookup name (writeFile images name d) = some d := by
  simp [writeFile, List.lookup]

theorem lookup_writeFile_other (images : List (String × ImageData))
    (name m : String) (d : ImageData) (h : name ≠ m) :
    List.lookup name (writeFile images m d) = List.lookup name images := by
  rw [writeFile, List.lookup_cons]
  have h2 : (name == m) = false := beq_eq_false_iff_ne.mpr h
  rw [h2]
  exact lookup_filter_ne name m h images

/-- On a valid parsed table, one run writes the four images (in program
order) over whatever the images directory held. -/
theorem runOnFS_parsed (t : Table) (images : List (String × ImageData))
    (hcols : columnsValid t = true) :
    runOnFS ⟨.parsed t, images⟩ =
      ⟨.parsed t,
       writeFile
         (writeFile
           (writeFile
             (writeFile images "MT25081_cpu_vs_components.png"
               (.single (cpuChartSeries t.rows)))
             "MT25081_mem_vs_components.png" (.single (memChartSeries t.rows)))
           "MT25081_io_vs_components.png" (.single (ioChartSeries t.rows)))
         "MT25081_time_vs_components.png" (.multi (timeChartPanels t.rows))⟩ := by
  simp [runOnFS, hcols]

/-- What each output filename maps to after a successful run, regardless
of the images directory's prior contents. -/
theorem runOnFS_lookup (t : Table) (images : List (String × ImageData))
    (hcols : columnsValid t = true) :
    List.lookup "MT25081_cpu_vs_components.png" (runOnFS ⟨.parsed t, images⟩).images =
      some (.single (cpuChartSeries t.rows)) ∧
    List.lookup "MT25081_mem_vs_components.png" (runOnFS ⟨.parsed t, images⟩).images =
      some (.single (memChartSeries t.rows)) ∧
    List.lookup "MT25081_io_vs_components.png" (runOnFS ⟨.parsed t, images⟩).images =
      some (.single (ioChartSeries t.rows)) ∧
    List.lookup "MT25081_time_vs_components.png" (runOnFS ⟨.parsed t, images⟩).images =
      some (.multi (timeChartPanels t.rows)) := by
  rw [runOnFS_parsed t images hcols]
  refine ⟨?_, ?_, ?_, ?_⟩
  · rw [lookup_writeFile_other _ _ _ _ (by decide),
      lookup_writeFile_other _ _ _ _ (by decide),
      lookup_writeFile_other _ _ _ _ (by decide),
      lookup_writeFile_self]
  · rw [lookup_writeFile_other _ _ _ _ (by decide),
      lookup_writeFile_other _ _ _ _ (by decide),
      lookup_writeFile_self]
  · rw [lookup_writeFile_other _ _ _ _ (by decide),
      lookup_writeFile_self]
  · rw [lookup_writeFile_self]

/-- C8: the run is deterministic in its plotted data: for a fixed valid
table, the contents of the four output files do not depend on what the
images directory previously held (so two runs on identical input encode
identical plotted data points); running a second time overwrites the
four files with identical contents; and all four files are present after
a run. -/
theorem c8_deterministic (t : Table)
    (images1 images2 : List (String × ImageData))
    (hcols : columnsValid t = true) :
    ∀ name ∈ output_files,
      List.lookup name (runOnFS ⟨.parsed t, images1⟩).images =
        List.lookup name (runOnFS ⟨.parsed t, images2⟩).images ∧
      List.lookup name (runOnFS (runOnFS ⟨.parsed t, images1⟩)).images =
        List.lookup name (runOnFS ⟨.parsed t, images1⟩).images ∧
      (List.lookup name (runOnFS ⟨.parsed t, images1⟩).images).isSome = true := by
  intro name hn
  obtain ⟨h11, h12, h13, h14⟩ := runOnFS_lookup t images1 hcols
  obtain ⟨h21, h22, h23, h24⟩ := runOnFS_lookup t images2 hcols
  obtain ⟨h31, h32, h33, h34⟩ :=
    runOnFS_lookup t (runOnFS ⟨.parsed t, images1⟩).images hcols
  have himg : (runOnFS (runOnFS ⟨.parsed t, images1⟩)) =
      runOnFS ⟨.parsed t, (runOnFS ⟨.parsed t, images1⟩).images⟩ := by
    rw [runOnFS_parsed t images1 hcols]
  simp only [output_files, List.mem_cons, List.not_mem_nil, or_false] at hn
  rcases hn with rfl | rfl | rfl | rfl
  · exact ⟨h11.trans h21.symm, by rw [himg, h31, h11], by rw [h11]; rfl⟩
  · exact ⟨h12.trans h22.symm, by rw [himg, h32, h12], by rw [h12]; rfl⟩
  · exact ⟨h13.trans h23.symm, by rw [himg, h33, h13], by rw [h13]; rfl⟩
  · exact ⟨h14.trans h24.symm, by rw [himg, h34, h14], by rw [h14]; rfl⟩

theorem c8_deterministic_witness :
    (List.lookup "MT25081_cpu_vs_components.png"
        (runOnFS ⟨.parsed fullTable, []⟩).images =
      List.lookup "MT25081_cpu_vs_components.png"
        (runOnFS ⟨.parsed fullTable,
          [("MT25081_cpu_vs_components.png", ImageData.single [])]⟩).images ∧
     List.lookup "MT25081_cpu_vs_components.png"
        (runOnFS (runOnFS ⟨.parsed fullTable, []⟩)).images =
      List.lookup "MT25081_cpu_vs_components.png"
        (runOnFS ⟨.parsed fullTable, []⟩).images ∧
     (List.lookup "MT25081_cpu_vs_components.png"
        (runOnFS ⟨.parsed fullTable, []⟩).images).isSome = true) :=
  c8_deterministic fullTable []
    [("MT25081_cpu_vs_components.png", ImageData.single [])] (by decide)
    "MT25081_cpu_vs_components.png" (by decide)

/-- C9: the run is read-only over the input and write-only over the four
fixed image names: the input CSV state is unchanged by a run, any file
whose name is not one of the four outputs is untouched, and the chart
data handed to every one of the four chart steps is derived from the one
loaded, unmodified row list. -/
theorem c9_frame (fs : FS) (name : String) (h : name ∉ output_files) :
    (runOnFS fs).csv = fs.csv ∧
    List.lookup name (runOnFS fs).images = List.lookup name fs.images ∧
    (∀ t, fs.csv = .parsed t →
      ∀ c, (mainRun fs.csv).charts = some c → c = chartsOf t.rows) := by
  obtain ⟨csv, images⟩ := fs
  simp only [output_files, List.mem_cons, List.not_mem_nil, or_false, not_or] at h
  obtain ⟨h1, h2, h3, h4⟩ := h
  cases csv with
  | missing => exact ⟨rfl, rfl, by rintro t ⟨⟩⟩
  | unparseable m => exact ⟨rfl, rfl, by rintro t ⟨⟩⟩
  | parsed t =>
    by_cases hcols : columnsValid t = true
    · refine ⟨by rw [runOnFS_parsed t images hcols], ?_, ?_⟩
      · rw [runOnFS_parsed t images hcols]
        show List.lookup name (writeFile _ _ _) = _
        rw [lookup_writeFile_other _ _ _ _ h4, lookup_writeFile_other _ _ _ _ h3,
          lookup_writeFile_other _ _ _ _ h2, lookup_writeFile_other _ _ _ _ h1]
      · rintro t' ⟨⟩ c hc
        rw [mainRun, if_pos hcols] at hc
        exact (Option.some_inj.mp hc).symm
    · have hrun : runOnFS ⟨.parsed t, images⟩ = ⟨.parsed t, images⟩ := by
        simp [runOnFS, hcols]
      refine ⟨by rw [hrun], by rw [hrun], ?_⟩
      rintro t' ⟨⟩ c hc
      rw [mainRun, if_neg hcols] at hc
      exact absurd hc (by simp)

theorem c9_frame_witness :
    ((runOnFS ⟨.parsed fullTable, []⟩).csv = (⟨.parsed fullTable, []⟩ : FS).csv ∧
     List.lookup "notes.txt" (runOnFS ⟨.parsed fullTable, []⟩).images =
       List.lookup "notes.txt" (⟨.parsed fullTable, []⟩ : FS).images ∧
     (∀ t, (⟨.parsed fullTable, []⟩ : FS).csv = .parsed t →
       ∀ c, (mainRun (⟨.parsed fullTable, []⟩ : FS).csv).charts = some c →
         c = chartsOf t.rows)) :=
  c9_frame ⟨.parsed fullTable, []⟩ "notes.txt" (by decide)

end GeneratePlots
